import Mathlib

/-!
Verification of the aura-intelligent-answers-module request router.

The development shallowly embeds the Python sources:
* `src/aura_ia/utils/config.py` — dot-addressed nested configuration store;
* `src/aura_ia/core/ai_provider.py` — provider config validation;
* `src/aura_ia/providers/gemini_provider.py` / `gpt_provider.py` — prompt assembly;
* `src/aura_ia/core/processor.py` — provider selection, request processing,
  default-provider switching.

Python dictionaries are modelled as insertion-ordered association lists,
Python exceptions as `Except`, and the logging sink as an explicit event
trace returned alongside each result.  Floating-point fields (`temperature`)
play no role in any property considered here and are omitted from the
embedded records.
-/

set_option autoImplicit false

namespace AuraIA

/-- A Python value as stored in the configuration mapping: `None`, booleans,
integers, strings, and (insertion-ordered) dictionaries. -/
inductive PyVal where
  | none
  | bool (b : Bool)
  | int (n : Int)
  | str (s : String)
  | dict (entries : List (String × PyVal))

/-- Python `d.get(k)`: first entry whose key equals `k`, if any. -/
def dictGet {α : Type} : List (String × α) → String → Option α
  | [], _ => Option.none
  | (k', v) :: rest, k => if k' = k then some v else dictGet rest k

/-- Python `d[k] = v`: replace the value of an existing key in place, else
append the new entry at the end (insertion order preserved). -/
def dictSet {α : Type} : List (String × α) → String → α → List (String × α)
  | [], k, v => [(k, v)]
  | (k', v') :: rest, k, v =>
      if k' = k then (k, v) :: rest else (k', v') :: dictSet rest k v

/-- Python `s.split('.')` on the character list of `s` (single-character
separator): accumulate the current segment, cut at every dot. -/
def splitDotAux : List Char → List Char → List String
  | [], acc => [String.mk acc.reverse]
  | c :: cs, acc =>
      if c = '.' then String.mk acc.reverse :: splitDotAux cs []
      else splitDotAux cs (c :: acc)

/-- Python `key.split('.')`. -/
def splitDot (s : String) : List String :=
  splitDotAux s.data []

/-- The configuration store's underlying dictionary (`Config._config`). -/
abbrev Config : Type := List (String × PyVal)

/-- Traversal loop of `Config.get` (config.py lines 62-73): descend through
nested dictionaries; an absent key, a stored `None`, or an attempt to index
into a non-dictionary yields the default. -/
def configGetAux : PyVal → List String → PyVal → PyVal
  | v, [], _ => v
  | PyVal.dict es, k :: ks, d =>
      match dictGet es k with
      | Option.none => d
      | some PyVal.none => d
      | some v => configGetAux v ks d
  | _, _ :: _, d => d

/-- `Config.get(key, default)` (config.py lines 51-73). -/
def Config.get (cfg : Config) (key : String) (default : PyVal) : PyVal :=
  configGetAux (PyVal.dict cfg) (splitDot key) default

/-- Traversal loop of `Config.set` (config.py lines 83-91): walk all
segments but the last, creating an empty dictionary for an absent segment;
meeting an existing non-dictionary value raises a `TypeError`, modelled as
`Except.error`. -/
def configSetAux : List (String × PyVal) → List String → PyVal → Except Unit (List (String × PyVal))
  | es, [], _ => Except.ok es
  | es, [k], v => Except.ok (dictSet es k v)
  | es, k :: k' :: ks, v =>
      match dictGet es k with
      | Option.none =>
          match configSetAux [] (k' :: ks) v with
          | Except.ok sub => Except.ok (dictSet es k (PyVal.dict sub))
          | Except.error e => Except.error e
      | some (PyVal.dict sub) =>
          match configSetAux sub (k' :: ks) v with
          | Except.ok sub' => Except.ok (dictSet es k (PyVal.dict sub'))
          | Except.error e => Except.error e
      | some _ => Except.error ()

/-- `Config.set(key, value)` (config.py lines 75-91). -/
def Config.set (cfg : Config) (key : String) (value : PyVal) : Except Unit Config :=
  configSetAux cfg (splitDot key) value

example : splitDot "a.b.c" = ["a", "b", "c"] := by decide
example : splitDot "" = [""] := by decide
example :
    Config.set ([] : Config) "a.b.c" (PyVal.int 42) =
      Except.ok [("a", PyVal.dict [("b", PyVal.dict [("c", PyVal.int 42)])])] := rfl
example :
    Config.get [("a", PyVal.dict [("b", PyVal.dict [("c", PyVal.int 42)])])] "a.b.c" PyVal.none =
      PyVal.int 42 := rfl
example :
    Config.get ([] : Config) "missing.key" (PyVal.str "D") = PyVal.str "D" := rfl
example :
    Config.set [("a", PyVal.int 5)] "a.b" (PyVal.int 7) = Except.error () := rfl

/-! ## Providers and the request processor (core/processor.py, core/ai_provider.py) -/

/-- Context argument: a flat string-to-string mapping (`None` is modelled as
the empty list, matching its falsiness in the Python guards). -/
abbrev Ctx : Type := List (String × String)

/-- One conversation-history message: a small string dictionary that is read
with `msg.get("role", "user")` and `msg.get("content", "")`. -/
abbrev HistMsg : Type := List (String × String)

/-- Python `m.get(k, default)` on a string dictionary. -/
def msgGet (m : HistMsg) (k : String) (default : String) : String :=
  match dictGet m k with
  | some v => v
  | Option.none => default

/-- Outcome of one `generate_response` call on a live provider: returned
text, a raised `ProviderException`, or any other raised exception.  The
network call itself is outside the embedding, so each provider carries its
behaviour as a function. -/
inductive GenResult where
  | ok (text : String)
  | providerExc (msg : String)
  | otherExc (msg : String)

/-- A live provider instance as the processor sees it: its
`get_provider_name()` string and its `generate_response` behaviour. -/
structure Provider where
  name : String
  generate : String → Ctx → List HistMsg → GenResult

/-- Exceptions that the embedded code can raise. -/
inductive PyExc where
  | validation (msg : String)
  | valueError (msg : String)
  | providerExc (msg : String)
deriving DecidableEq

/-- One event written to the logging sink; `generateCalled` marks the moment
`provider.generate_response` is invoked (the spy observation used by the
validation properties). -/
inductive LogEvent where
  | log_info (msg : String)
  | log_warning (msg : String)
  | log_error (msg : String) (error_type : String)
  | log_interaction (request : String) (response : String) (provider : String)
  | generateCalled (provider : String)
deriving DecidableEq

/-- The response envelope returned by `process_request`; an `Option` field
is `none` exactly when the Python dictionary lacks that key. -/
structure Envelope where
  success : Bool
  response : Option String
  error : Option String
  provider : Option String
  request : String
deriving DecidableEq

/-- The `request` argument: a Python string, or any non-string value (for
example an absent/None argument). -/
inductive ReqArg where
  | str (s : String)
  | nonString

/-- Processor state: the provider registry (insertion-ordered, fixed after
construction) and the current default provider. -/
structure RequestProcessor where
  providers : List (String × Provider)
  default_provider : Option Provider

/-- `RequestProcessor._select_provider` (processor.py lines 165-185).  The
Python guard `if provider_name:` is truthiness: both `None` and the empty
string fall through to the default provider without a warning. -/
def RequestProcessor.select_provider (p : RequestProcessor)
    (provider_name : Option String) : Option Provider × List LogEvent :=
  match provider_name with
  | some n =>
      if n ≠ "" then
        match dictGet p.providers n with
        | some prov => (some prov, [])
        | Option.none =>
            (p.default_provider,
             [LogEvent.log_warning
               ("Requested provider '" ++ n ++ "' not available. Falling back to default.")])
      else (p.default_provider, [])
  | Option.none => (p.default_provider, [])

/-- `RequestProcessor.process_request` (processor.py lines 82-163).  The
result pairs the returned envelope (or the raised exception) with the
trace of log events and generate invocations. -/
def RequestProcessor.process_request (p : RequestProcessor) (request : ReqArg)
    (context : Ctx) (conversation_history : List HistMsg)
    (provider_name : Option String) : Except PyExc Envelope × List LogEvent :=
  match request with
  | ReqArg.nonString =>
      (Except.error (PyExc.validation "Request must be a non-empty string"), [])
  | ReqArg.str s =>
      if s = "" then
        (Except.error (PyExc.validation "Request must be a non-empty string"), [])
      else
        match p.select_provider provider_name with
        | (Option.none, selEvents) =>
            (Except.ok
              { success := false, response := Option.none,
                error := some "No AI provider available",
                provider := Option.none, request := s },
             selEvents ++ [LogEvent.log_error "No AI provider available" "provider_error"])
        | (some prov, selEvents) =>
            let events := selEvents ++
              [LogEvent.log_info ("Processing request with " ++ prov.name ++ " provider"),
               LogEvent.generateCalled prov.name]
            match prov.generate s context conversation_history with
            | GenResult.ok text =>
                (Except.ok
                  { success := true, response := some text, error := Option.none,
                    provider := some prov.name, request := s },
                 events ++ [LogEvent.log_interaction s text prov.name])
            | GenResult.providerExc msg =>
                (Except.ok
                  { success := false, response := Option.none, error := some msg,
                    provider := some prov.name, request := s },
                 events ++ [LogEvent.log_error msg "provider_error"])
            | GenResult.otherExc msg =>
                (Except.ok
                  { success := false, response := Option.none,
                    error := some ("Unexpected error: " ++ msg),
                    provider := some prov.name, request := s },
                 events ++ [LogEvent.log_error msg "unexpected_error"])

/-- Default-provider selection at construction (processor.py lines 32-48).
The registry has already been populated by `_initialize_providers` (whose
work is building thin wrappers over external SDK clients) and
`default_provider_name` is `config.get("default_provider", "gemini")`.
Construction is total: when no provider is available only an error is
logged. -/
def RequestProcessor.mk_processor (providers : List (String × Provider))
    (default_provider_name : String) : RequestProcessor × List LogEvent :=
  match dictGet providers default_provider_name with
  | some prov => ({ providers := providers, default_provider := some prov }, [])
  | Option.none =>
      let warn := LogEvent.log_warning
        ("Default provider '" ++ default_provider_name ++
          "' not available. Using first available provider.")
      match providers.head? with
      | some entry =>
          ({ providers := providers, default_provider := some entry.2 }, [warn])
      | Option.none =>
          ({ providers := providers, default_provider := Option.none },
           [warn, LogEvent.log_error "No AI providers available" "initialization_error"])

/-- `RequestProcessor.switch_default_provider` (processor.py lines 196-213):
returns the boolean result, the updated processor state, and the log trace. -/
def RequestProcessor.switch_default_provider (p : RequestProcessor)
    (provider_name : String) : Bool × RequestProcessor × List LogEvent :=
  match dictGet p.providers provider_name with
  | some prov =>
      (true, { p with default_provider := some prov },
       [LogEvent.log_info ("Default provider switched to: " ++ provider_name)])
  | Option.none =>
      (false, p,
       [LogEvent.log_warning ("Cannot switch to unavailable provider: " ++ provider_name)])

/-! ## Provider construction (core/ai_provider.py, providers/) -/

/-- `AIProviderConfig` (ai_provider.py lines 8-20).  The floating-point
`temperature` field and the free-form `additional_params` mapping play no
part in validation or in any property here and are omitted. -/
structure AIProviderConfig where
  api_key : String
  model : String
  max_tokens : Option Nat := Option.none

/-- `AIProvider._validate_config` (ai_provider.py lines 36-41): an empty
API key, then an empty model name, raise `ValueError`. -/
def AIProvider.validate_config (cls_name : String) (config : AIProviderConfig) :
    Except PyExc Unit :=
  if config.api_key = "" then
    Except.error (PyExc.valueError (cls_name ++ " requires an API key"))
  else if config.model = "" then
    Except.error (PyExc.valueError (cls_name ++ " requires a model name"))
  else Except.ok ()

/-- Construction-time events: `clientInit` marks the start of
`_initialize_client`, the first interaction with the remote-client SDK. -/
inductive InitEvent where
  | clientInit
deriving DecidableEq

/-- Shared `__init__` shape of `GeminiProvider` and `GPTProvider`
(gemini_provider.py lines 11-34, gpt_provider.py lines 11-33): the base
constructor validates the configuration, then `_initialize_client` builds
the remote client, whose outcome (an import or SDK failure becomes a
`ProviderException`) is the `client_init` oracle. -/
def providerInit (cls_name : String) (config : AIProviderConfig)
    (client_init : Except String Unit) : Except PyExc AIProviderConfig × List InitEvent :=
  match AIProvider.validate_config cls_name config with
  | Except.error e => (Except.error e, [])
  | Except.ok _ =>
      match client_init with
      | Except.error msg => (Except.error (PyExc.providerExc msg), [InitEvent.clientInit])
      | Except.ok _ => (Except.ok config, [InitEvent.clientInit])

/-- `GeminiProvider.__init__`. -/
def GeminiProvider.init (config : AIProviderConfig) (client_init : Except String Unit) :
    Except PyExc AIProviderConfig × List InitEvent :=
  providerInit "GeminiProvider" config client_init

/-- `GPTProvider.__init__`. -/
def GPTProvider.init (config : AIProviderConfig) (client_init : Except String Unit) :
    Except PyExc AIProviderConfig × List InitEvent :=
  providerInit "GPTProvider" config client_init

/-! ## Prompt assembly (providers/gemini_provider.py, providers/gpt_provider.py) -/

/-- Python `sep.join(parts)`. -/
def pyJoin (sep : String) : List String → String
  | [] => ""
  | [s] => s
  | s :: s' :: rest => s ++ sep ++ pyJoin sep (s' :: rest)

/-- One rendered context line, `f"{k}: {v}"`. -/
def renderKV (kv : String × String) : String :=
  kv.1 ++ ": " ++ kv.2

/-- One rendered history line, `f"{msg.get('role' ,'user')}: {msg.get('content', '')}"`. -/
def renderHist (m : HistMsg) : String :=
  msgGet m "role" "user" ++ ": " ++ msgGet m "content" ""

/-- `GeminiProvider._build_prompt` (gemini_provider.py lines 73-98): the
optional context block, the optional history block, and the current prompt,
joined by newlines.  The Python guards `if context:` / `if
conversation_history:` are truthiness on the (possibly `None`) arguments,
modelled by emptiness. -/
def GeminiProvider.build_prompt (prompt : String) (context : Ctx)
    (conversation_history : List HistMsg) : String :=
  let parts : List String :=
    (if context = [] then [] else
      ["Context:\n" ++ pyJoin "\n" (context.map renderKV) ++ "\n"]) ++
    (if conversation_history = [] then [] else
      ["Previous conversation:\n" ++
        pyJoin "\n" (conversation_history.map renderHist) ++ "\n"]) ++
    ["User: " ++ prompt]
  pyJoin "\n" parts

/-- One role-tagged chat message. -/
structure ChatMsg where
  role : String
  content : String
deriving DecidableEq

/-- `GPTProvider._build_messages` (gpt_provider.py lines 71-99): a leading
system message with the context folded in, the normalized history messages
in their given order, then the user prompt. -/
def GPTProvider.build_messages (prompt : String) (context : Ctx)
    (conversation_history : List HistMsg) : List ChatMsg :=
  let system_content :=
    "You are Aura, an intelligent financial assistant." ++
      (if context = [] then "" else
        "\n\nContext:\n" ++ pyJoin "\n" (context.map renderKV))
  { role := "system", content := system_content } ::
    (conversation_history.map
      (fun m => { role := msgGet m "role" "user", content := msgGet m "content" "" }) ++
     [{ role := "user", content := prompt }])

/-! ## General lemmas about the dictionary model -/

theorem dictGet_isSome_iff {α : Type} (l : List (String × α)) (k : String) :
    (dictGet l k).isSome = true ↔ k ∈ l.map Prod.fst := by
  induction l with
  | nil => simp [dictGet]
  | cons e rest ih =>
      obtain ⟨k', v⟩ := e
      by_cases h : k' = k
      · subst h; simp [dictGet]
      · simp [dictGet, h, ih, Ne.symm h]

theorem dictGet_dictSet_self {α : Type} (l : List (String × α)) (k : String) (v : α) :
    dictGet (dictSet l k v) k = some v := by
  induction l with
  | nil => simp [dictGet, dictSet]
  | cons e rest ih =>
      obtain ⟨k', v'⟩ := e
      by_cases h : k' = k
      · subst h; simp [dictGet, dictSet]
      · simp [dictGet, dictSet, h, ih]

/-! ## Concrete fixtures used by witnesses and counterexamples -/

/-- A provider that echoes the request, registered under its own name. -/
def echoProvider : Provider :=
  { name := "gemini", generate := fun s _ _ => GenResult.ok ("echo: " ++ s) }

/-- A second provider, named "gpt". -/
def gptFixture : Provider :=
  { name := "gpt", generate := fun _ _ _ => GenResult.providerExc "GPT generation failed: boom" }

/-- A processor whose registry holds exactly the echo provider, which is
also the default (the state `mk_processor` builds from that registry). -/
def procOne : RequestProcessor :=
  { providers := [("gemini", echoProvider)], default_provider := some echoProvider }

/-! ## C6 — switch_default_provider -/

/-- C6: `switch_default_provider(name)` returns true and points the default
at the registry entry for `name` exactly when `name` is a registry key;
otherwise it returns false and leaves the whole state (default provider and
registry) unchanged, raising nothing (the embedded function is total). -/
theorem c6_switch_default (p : RequestProcessor) (name : String) :
    ((p.switch_default_provider name).1 = true ↔ name ∈ p.providers.map Prod.fst)
    ∧ (p.switch_default_provider name).2.1.providers = p.providers
    ∧ ((p.switch_default_provider name).1 = true →
        (p.switch_default_provider name).2.1.default_provider = dictGet p.providers name)
    ∧ ((p.switch_default_provider name).1 = false →
        (p.switch_default_provider name).2.1 = p) := by
  cases h : dictGet p.providers name with
  | none =>
      have hmem : ¬ name ∈ p.providers.map Prod.fst := by
        rw [← dictGet_isSome_iff, h]; simp
      simp [RequestProcessor.switch_default_provider, h, hmem]
  | some prov =>
      have hmem : name ∈ p.providers.map Prod.fst := by
        rw [← dictGet_isSome_iff, h]; simp
      simp [RequestProcessor.switch_default_provider, h, hmem]

/-- Witness for C6 at a concrete processor: switching to the registered
name "gemini" succeeds and installs that entry; the registry is kept. -/
theorem c6_switch_default_witness :
    ((procOne.switch_default_provider "gemini").1 = true ↔
        "gemini" ∈ procOne.providers.map Prod.fst)
    ∧ (procOne.switch_default_provider "gemini").2.1.providers = procOne.providers
    ∧ ((procOne.switch_default_provider "gemini").1 = true →
        (procOne.switch_default_provider "gemini").2.1.default_provider =
          dictGet procOne.providers "gemini")
    ∧ ((procOne.switch_default_provider "gemini").1 = false →
        (procOne.switch_default_provider "gemini").2.1 = procOne) :=
  c6_switch_default procOne "gemini"

/-! ## Configuration-store lemmas -/

theorem splitDotAux_ne_nil (cs : List Char) (acc : List Char) : splitDotAux cs acc ≠ [] := by
  induction cs generalizing acc with
  | nil => simp [splitDotAux]
  | cons c cs ih =>
      by_cases h : c = '.'
      · simp [splitDotAux, h]
      · simpa [splitDotAux, h] using ih (c :: acc)

theorem splitDot_ne_nil (s : String) : splitDot s ≠ [] :=
  splitDotAux_ne_nil s.data []

/-- Whether a Python value is `None`. -/
def PyVal.isNone : PyVal → Bool
  | PyVal.none => true
  | _ => false

/-- After a successful `set` along `segs`, `get` along the same segments
finds the written value — except that a written `None` reads back as the
default. -/
theorem configSetAux_get (segs : List String) (es es' : List (String × PyVal))
    (v d : PyVal) (hne : segs ≠ []) (hset : configSetAux es segs v = Except.ok es') :
    configGetAux (PyVal.dict es') segs d = if v.isNone then d else v := by
  induction segs generalizing es es' with
  | nil => exact absurd rfl hne
  | cons k rest ih =>
      cases rest with
      | nil =>
          have hes' : es' = dictSet es k v := by
            simpa [configSetAux] using hset.symm
          subst hes'
          cases v <;> simp [configGetAux, dictGet_dictSet_self, PyVal.isNone]
      | cons k' ks =>
          cases hg : dictGet es k with
          | none =>
              cases hsub : configSetAux [] (k' :: ks) v with
              | error e => simp [configSetAux, hg, hsub] at hset
              | ok sub =>
                  have hes' : es' = dictSet es k (PyVal.dict sub) := by
                    have := hset
                    simp [configSetAux, hg, hsub] at this
                    exact this.symm
                  subst hes'
                  simpa [configGetAux, dictGet_dictSet_self] using
                    ih [] sub (by simp) hsub
          | some w =>
              cases w with
              | dict sub =>
                  cases hsub : configSetAux sub (k' :: ks) v with
                  | error e => simp [configSetAux, hg, hsub] at hset
                  | ok sub' =>
                      have hes' : es' = dictSet es k (PyVal.dict sub') := by
                        have := hset
                        simp [configSetAux, hg, hsub] at this
                        exact this.symm
                      subst hes'
                      simpa [configGetAux, dictGet_dictSet_self] using
                        ih sub sub' (by simp) hsub
              | none => simp [configSetAux, hg] at hset
              | bool b => simp [configSetAux, hg] at hset
              | int n => simp [configSetAux, hg] at hset
              | str s => simp [configSetAux, hg] at hset

/-- The traversal condition of the claims: walking `segs` from `v` meets an
absent key, or tries to index into a non-dictionary. -/
def getMisses : PyVal → List String → Bool
  | _, [] => false
  | PyVal.dict es, k :: ks =>
      match dictGet es k with
      | Option.none => true
      | some v => getMisses v ks
  | _, _ :: _ => true

theorem configGetAux_of_misses (segs : List String) (v0 d : PyVal)
    (h : getMisses v0 segs = true) : configGetAux v0 segs d = d := by
  induction segs generalizing v0 with
  | nil => simp [getMisses] at h
  | cons k ks ih =>
      cases v0 with
      | dict es =>
          cases hg : dictGet es k with
          | none => simp [configGetAux, hg]
          | some w =>
              have hw : getMisses w ks = true := by simpa [getMisses, hg] using h
              cases w with
              | none => simp [configGetAux, hg]
              | bool b => simp [configGetAux, hg]; exact ih _ hw
              | int n => simp [configGetAux, hg]; exact ih _ hw
              | str s => simp [configGetAux, hg]; exact ih _ hw
              | dict sub => simp [configGetAux, hg]; exact ih _ hw
      | none => simp [configGetAux]
      | bool b => simp [configGetAux]
      | int n => simp [configGetAux]
      | str s => simp [configGetAux]

/-! ## C7 — config set/get round trip and defaulting -/

/-- C7 counterexample to the claim as stated: with `{"a": 5}` already
stored, `set("a.b", 7)` raises a `TypeError` (descending into the
non-mapping value `5`), so no subsequent `get("a.b")` can return `7`; `set`
does not create an intermediate mapping here. -/
theorem c7_counterexample :
    Config.set [("a", PyVal.int 5)] "a.b" (PyVal.int 7) = Except.error ()
    ∧ ∀ cfg' : Config,
        ¬ Config.set [("a", PyVal.int 5)] "a.b" (PyVal.int 7) = Except.ok cfg' := by
  refine ⟨rfl, ?_⟩
  intro cfg' h
  rw [show Config.set [("a", PyVal.int 5)] "a.b" (PyVal.int 7) = Except.error () from rfl] at h
  exact Except.noConfusion h

/-- C7 as amended: when every existing value met on the way to the last
segment is a mapping — equivalently, when `set` returns instead of raising
`TypeError` — the round trip holds: after `set(key, value)`, `get(key)`
(whose default is `None`) returns the value, with intermediate mappings
created as needed; and whenever the traversal of a key meets an absent
segment or tries to descend into a non-mapping value, `get(key, default)`
returns the default. -/
theorem c7_config_get_set (cfg cfg' : Config) (key : String) (v d : PyVal) :
    (Config.set cfg key v = Except.ok cfg' → Config.get cfg' key PyVal.none = v)
    ∧ (getMisses (PyVal.dict cfg) (splitDot key) = true → Config.get cfg key d = d) := by
  constructor
  · intro hset
    have h := configSetAux_get (splitDot key) cfg cfg' v PyVal.none (splitDot_ne_nil key) hset
    rw [Config.get, h]
    cases v <;> simp [PyVal.isNone]
  · intro hmiss
    exact configGetAux_of_misses _ _ _ hmiss

/-- Witness for C7 at the spec examples: `set("a.b.c", 42)` then
`get("a.b.c")` yields `42` (intermediate mappings created from an empty
store), and `get("missing.key", "D")` on that same empty store yields
`"D"`. -/
theorem c7_config_get_set_witness :
    Config.get [("a", PyVal.dict [("b", PyVal.dict [("c", PyVal.int 42)])])]
        "a.b.c" PyVal.none = PyVal.int 42
    ∧ Config.get ([] : Config) "a.b.c" (PyVal.str "D") = PyVal.str "D" :=
  ⟨(c7_config_get_set [] [("a", PyVal.dict [("b", PyVal.dict [("c", PyVal.int 42)])])]
      "a.b.c" (PyVal.int 42) (PyVal.str "D")).1 rfl,
   (c7_config_get_set [] [] "a.b.c" (PyVal.int 42) (PyVal.str "D")).2 rfl⟩

/-! ## C10 — a stored None reads back as the default -/

/-- Pure resolution of a segment path: the value stored at that path, if
every segment is present and every intermediate value is a dictionary. -/
def configLookup : PyVal → List String → Option PyVal
  | v, [] => some v
  | PyVal.dict es, k :: ks =>
      match dictGet es k with
      | some v => configLookup v ks
      | Option.none => Option.none
  | _, _ :: _ => Option.none

theorem configGetAux_of_lookup_none (segs : List String) (es : List (String × PyVal))
    (d : PyVal) (hne : segs ≠ [])
    (h : configLookup (PyVal.dict es) segs = some PyVal.none) :
    configGetAux (PyVal.dict es) segs d = d := by
  induction segs generalizing es with
  | nil => exact absurd rfl hne
  | cons k rest ih =>
      cases hg : dictGet es k with
      | none => simp [configGetAux, hg]
      | some w =>
          have hw : configLookup w rest = some PyVal.none := by
            simpa [configLookup, hg] using h
          cases rest with
          | nil =>
              have : w = PyVal.none := by simpa [configLookup] using hw
              subst this
              simp [configGetAux, hg]
          | cons k' ks =>
              cases w with
              | none => simp [configGetAux, hg]
              | dict sub => simp [configGetAux, hg]; exact ih sub (by simp) hw
              | bool b => simp [configLookup] at hw
              | int n => simp [configLookup] at hw
              | str s => simp [configLookup] at hw

/-- C10: a key whose stored value is `None` is indistinguishable from an
absent key through `get` — `get(key, default)` returns the default — and in
particular the `set`/`get` round trip fails for the value `None`: after a
successful `set(key, None)`, `get(key, default)` returns the default, for
every default. -/
theorem c10_none_as_absent (cfg cfg' : Config) (key : String) (d : PyVal) :
    (configLookup (PyVal.dict cfg) (splitDot key) = some PyVal.none →
        Config.get cfg key d = d)
    ∧ (Config.set cfg key PyVal.none = Except.ok cfg' → Config.get cfg' key d = d) := by
  constructor
  · intro h
    exact configGetAux_of_lookup_none _ _ _ (splitDot_ne_nil key) h
  · intro hset
    have h := configSetAux_get (splitDot key) cfg cfg' PyVal.none d (splitDot_ne_nil key) hset
    rw [Config.get, h]
    simp [PyVal.isNone]

/-- Witness for C10: with `{"a": None}` stored, `get("a", "D")` returns
`"D"`, both read off directly and as the result of the failed round trip
`set("a", None)` from the same store. -/
theorem c10_none_as_absent_witness :
    Config.get [("a", PyVal.none)] "a" (PyVal.str "D") = PyVal.str "D" :=
  (c10_none_as_absent [("a", PyVal.none)] [("a", PyVal.none)] "a" (PyVal.str "D")).1 rfl

/-! ## C5 — default-provider selection at construction -/

/-- C5: after the registry is populated, the default provider is the entry
under the configured default name when that name is registered; otherwise
the first-inserted registered provider; otherwise none — and in that last
case construction still completes (the embedded constructor is total),
with an error logged. -/
theorem c5_default_selection (provs : List (String × Provider)) (name : String) :
    (RequestProcessor.mk_processor provs name).1.providers = provs
    ∧ (name ∈ provs.map Prod.fst →
        (RequestProcessor.mk_processor provs name).1.default_provider = dictGet provs name)
    ∧ (¬ name ∈ provs.map Prod.fst →
        (RequestProcessor.mk_processor provs name).1.default_provider
          = provs.head?.map Prod.snd)
    ∧ (provs = [] →
        (RequestProcessor.mk_processor provs name).1.default_provider = Option.none
        ∧ LogEvent.log_error "No AI providers available" "initialization_error"
            ∈ (RequestProcessor.mk_processor provs name).2) := by
  cases h : dictGet provs name with
  | some prov =>
      have hmem : name ∈ provs.map Prod.fst := by
        rw [← dictGet_isSome_iff, h]; rfl
      refine ⟨?_, ?_, ?_, ?_⟩
      · simp [RequestProcessor.mk_processor, h]
      · intro _; simp [RequestProcessor.mk_processor, h]
      · intro hn; exact absurd hmem hn
      · intro he; subst he; simp [dictGet] at h
  | none =>
      have hmem : ¬ name ∈ provs.map Prod.fst := by
        rw [← dictGet_isSome_iff, h]; simp
      cases provs with
      | nil =>
          refine ⟨?_, ?_, ?_, ?_⟩
          · simp [RequestProcessor.mk_processor, h]
          · intro hn; simp at hn
          · intro _; simp [RequestProcessor.mk_processor, h]
          · intro _
            constructor
            · simp [RequestProcessor.mk_processor, h]
            · simp [RequestProcessor.mk_processor, h]
      | cons e rest =>
          refine ⟨?_, ?_, ?_, ?_⟩
          · simp [RequestProcessor.mk_processor, h]
          · intro hn; exact absurd hn hmem
          · intro _; simp [RequestProcessor.mk_processor, h]
          · intro he; exact absurd he (by simp)

/-- Witness for C5 on a two-entry registry whose configured default name is
absent: the default becomes the first-inserted provider. -/
theorem c5_default_selection_witness :
    (RequestProcessor.mk_processor [("gemini", echoProvider), ("gpt", gptFixture)]
        "mistral").1.providers = [("gemini", echoProvider), ("gpt", gptFixture)]
    ∧ ("mistral" ∈ ([("gemini", echoProvider), ("gpt", gptFixture)].map Prod.fst) →
        (RequestProcessor.mk_processor [("gemini", echoProvider), ("gpt", gptFixture)]
            "mistral").1.default_provider
          = dictGet [("gemini", echoProvider), ("gpt", gptFixture)] "mistral")
    ∧ (¬ "mistral" ∈ ([("gemini", echoProvider), ("gpt", gptFixture)].map Prod.fst) →
        (RequestProcessor.mk_processor [("gemini", echoProvider), ("gpt", gptFixture)]
            "mistral").1.default_provider
          = ([("gemini", echoProvider), ("gpt", gptFixture)].head?).map Prod.snd)
    ∧ ([("gemini", echoProvider), ("gpt", gptFixture)] = ([] : List (String × Provider)) →
        (RequestProcessor.mk_processor [("gemini", echoProvider), ("gpt", gptFixture)]
            "mistral").1.default_provider = Option.none
        ∧ LogEvent.log_error "No AI providers available" "initialization_error"
            ∈ (RequestProcessor.mk_processor [("gemini", echoProvider), ("gpt", gptFixture)]
                "mistral").2) :=
  c5_default_selection [("gemini", echoProvider), ("gpt", gptFixture)] "mistral"

/-! ## C4 — empty registry yields the fixed failure envelope -/

/-- C4: with an empty registry the constructed processor has no default
provider, and every call with a valid request returns, without raising, the
failure envelope whose error is exactly "No AI provider available"
(whatever provider name, context and history are passed). -/
theorem c4_empty_registry (name s : String) (ctx : Ctx) (hist : List HistMsg)
    (pn : Option String) (hs : s ≠ "") :
    (RequestProcessor.mk_processor [] name).1.default_provider = Option.none
    ∧ (RequestProcessor.mk_processor [] name).1.providers = []
    ∧ (RequestProcessor.process_request
          { providers := [], default_provider := Option.none }
          (ReqArg.str s) ctx hist pn).1
        = Except.ok
            { success := false, response := Option.none,
              error := some "No AI provider available",
              provider := Option.none, request := s } := by
  refine ⟨by simp [RequestProcessor.mk_processor, dictGet],
          by simp [RequestProcessor.mk_processor, dictGet], ?_⟩
  cases pn with
  | none =>
      simp [RequestProcessor.process_request, RequestProcessor.select_provider, hs]
  | some n =>
      by_cases hn : n = ""
      · subst hn
        simp [RequestProcessor.process_request, RequestProcessor.select_provider, hs]
      · simp [RequestProcessor.process_request, RequestProcessor.select_provider, hs, hn,
              dictGet]

/-- Witness for C4: the concrete call with request "hello" and the
unregistered provider name "nonexistent" on the empty-registry processor. -/
theorem c4_empty_registry_witness :
    (RequestProcessor.mk_processor [] "gemini").1.default_provider = Option.none
    ∧ (RequestProcessor.mk_processor [] "gemini").1.providers = []
    ∧ (RequestProcessor.process_request
          { providers := [], default_provider := Option.none }
          (ReqArg.str "hello") [] [] (some "nonexistent")).1
        = Except.ok
            { success := false, response := Option.none,
              error := some "No AI provider available",
              provider := Option.none, request := "hello" } :=
  c4_empty_registry "gemini" "hello" [] [] (some "nonexistent") (by decide)

/-! ## C2 — no exception escapes for valid requests -/

/-- The envelope the claim predicts for each outcome of the selected
provider's `generate_response`. -/
def envelopeFor (prov : Provider) (s : String) : GenResult → Envelope
  | GenResult.ok text =>
      { success := true, response := some text, error := Option.none,
        provider := some prov.name, request := s }
  | GenResult.providerExc msg =>
      { success := false, response := Option.none, error := some msg,
        provider := some prov.name, request := s }
  | GenResult.otherExc msg =>
      { success := false, response := Option.none,
        error := some ("Unexpected error: " ++ msg),
        provider := some prov.name, request := s }

/-- C2: for every non-empty string request, `process_request` returns an
envelope instead of raising; and when a provider is selected, the envelope
is exactly the one determined by the outcome of its `generate_response`: a
success envelope for returned text, the exception message for a
`ProviderException`, and the "Unexpected error: "-prefixed message for any
other exception, each carrying the provider and the request. -/
theorem c2_no_raise_envelopes (p : RequestProcessor) (prov : Provider) (s : String)
    (ctx : Ctx) (hist : List HistMsg) (pn : Option String) (hs : s ≠ "") :
    (∃ env, (p.process_request (ReqArg.str s) ctx hist pn).1 = Except.ok env)
    ∧ ((p.select_provider pn).1 = some prov →
        (p.process_request (ReqArg.str s) ctx hist pn).1
          = Except.ok (envelopeFor prov s (prov.generate s ctx hist))) := by
  constructor
  · rcases hsel : p.select_provider pn with ⟨o, evs⟩
    cases o with
    | none =>
        refine ⟨{ success := false, response := Option.none,
                  error := some "No AI provider available",
                  provider := Option.none, request := s }, ?_⟩
        simp [RequestProcessor.process_request, hs, hsel]
    | some q =>
        refine ⟨envelopeFor q s (q.generate s ctx hist), ?_⟩
        cases hg : q.generate s ctx hist <;>
          simp [RequestProcessor.process_request, hs, hsel, hg, envelopeFor]
  · intro hsome
    rcases hsel : p.select_provider pn with ⟨o, evs⟩
    rw [hsel] at hsome
    simp only at hsome
    subst hsome
    cases hg : prov.generate s ctx hist <;>
      simp [RequestProcessor.process_request, hs, hsel, hg, envelopeFor]

/-- Witness for C2: the concrete echo processor on request "hi" with no
provider-name override returns the success envelope of the echo text. -/
theorem c2_no_raise_envelopes_witness :
    (procOne.process_request (ReqArg.str "hi") [] [] Option.none).1
      = Except.ok (envelopeFor echoProvider "hi" (echoProvider.generate "hi" [] [])) :=
  (c2_no_raise_envelopes procOne echoProvider "hi" [] [] Option.none (by decide)).2 rfl

/-! ## C3 — input validation -/

/-- C3 counterexample to the claim as stated: the whitespace-only request
" " is accepted (Python only checks `not request or not isinstance(request,
str)`, and a whitespace-only string is truthy), the provider IS invoked
(the `generateCalled` event is in the trace), and a success envelope comes
back instead of a `ValidationError`. -/
theorem c3_counterexample :
    procOne.process_request (ReqArg.str " ") [] [] Option.none
      = (Except.ok
          { success := true, response := some "echo:  ", error := Option.none,
            provider := some "gemini", request := " " },
         [LogEvent.log_info "Processing request with gemini provider",
          LogEvent.generateCalled "gemini",
          LogEvent.log_interaction " " "echo:  " "gemini"]) := rfl

/-- C3 as amended: an empty-string request or a non-string request raises
`ValidationError` before any provider is invoked (the event trace is empty,
so in particular no `generate_response` call is recorded); a
whitespace-only request is NOT rejected — validation passes and an envelope
is returned. -/
theorem c3_validation (p : RequestProcessor) (ctx : Ctx) (hist : List HistMsg)
    (pn : Option String) :
    p.process_request ReqArg.nonString ctx hist pn
      = (Except.error (PyExc.validation "Request must be a non-empty string"), [])
    ∧ p.process_request (ReqArg.str "") ctx hist pn
      = (Except.error (PyExc.validation "Request must be a non-empty string"), [])
    ∧ ∃ env, (p.process_request (ReqArg.str " ") ctx hist pn).1 = Except.ok env := by
  refine ⟨rfl, by simp [RequestProcessor.process_request], ?_⟩
  rcases hsel : p.select_provider pn with ⟨o, evs⟩
  cases o with
  | none =>
      refine ⟨{ success := false, response := Option.none,
                error := some "No AI provider available",
                provider := Option.none, request := " " }, ?_⟩
      simp [RequestProcessor.process_request, hsel]
  | some q =>
      refine ⟨envelopeFor q " " (q.generate " " ctx hist), ?_⟩
      cases hg : q.generate " " ctx hist <;>
        simp [RequestProcessor.process_request, hsel, hg, envelopeFor]

/-! ## C1 — provider selection and fallback -/

theorem dictGet_mem {α : Type} (l : List (String × α)) (k : String) (v : α)
    (h : dictGet l k = some v) : (k, v) ∈ l := by
  induction l with
  | nil => simp [dictGet] at h
  | cons e rest ih =>
      obtain ⟨k', v'⟩ := e
      by_cases hk : k' = k
      · subst hk
        simp [dictGet] at h
        simp [h]
      · simp [dictGet, hk] at h
        simp [ih h]

/-- C1 counterexample to the claim as stated: the empty string is a given
provider name that is not a registry key, yet the fallback to the default
provider happens with NO warning logged (Python tests `if provider_name:`,
which is falsy for the empty string, and returns the default directly) —
the full event trace of the call holds no warning event. -/
theorem c1_counterexample :
    (procOne.providers.map Prod.fst).contains "" = false
    ∧ procOne.select_provider (some "") = (some echoProvider, [])
    ∧ procOne.process_request (ReqArg.str "hi") [] [] (some "")
        = (Except.ok
            { success := true, response := some "echo: hi", error := Option.none,
              provider := some "gemini", request := "hi" },
           [LogEvent.log_info "Processing request with gemini provider",
            LogEvent.generateCalled "gemini",
            LogEvent.log_interaction "hi" "echo: hi" "gemini"]) :=
  ⟨rfl, rfl, rfl⟩

/-- C1 as amended: on a registry whose entries are registered under their
own provider name, a NON-EMPTY given provider name that is a registry key
selects exactly that provider and the returned envelope carries that name;
a non-empty given name that is not a key falls back to the default provider
with a warning logged, and the envelope then carries the default provider's
name; an absent provider name — and likewise the (falsy) empty-string name,
which is treated as not given, without a warning — uses the default
provider. -/
theorem c1_provider_selection (p : RequestProcessor) (prov : Provider)
    (n s : String) (ctx : Ctx) (hist : List HistMsg)
    (hwf : ∀ e ∈ p.providers, (Prod.snd e).name = Prod.fst e) (hs : s ≠ "") :
    ((n ≠ "" ∧ n ∈ p.providers.map Prod.fst) →
        (p.select_provider (some n)).1 = dictGet p.providers n
        ∧ (p.select_provider (some n)).2 = []
        ∧ Except.map Envelope.provider
            (p.process_request (ReqArg.str s) ctx hist (some n)).1 = Except.ok (some n))
    ∧ ((n ≠ "" ∧ ¬ n ∈ p.providers.map Prod.fst) →
        p.select_provider (some n)
          = (p.default_provider,
             [LogEvent.log_warning
               ("Requested provider '" ++ n ++ "' not available. Falling back to default.")]))
    ∧ ((n ≠ "" ∧ ¬ n ∈ p.providers.map Prod.fst ∧ p.default_provider = some prov) →
        Except.map Envelope.provider
          (p.process_request (ReqArg.str s) ctx hist (some n)).1
            = Except.ok (some prov.name))
    ∧ p.select_provider Option.none = (p.default_provider, [])
    ∧ p.select_provider (some "") = (p.default_provider, []) := by
  refine ⟨?_, ?_, ?_, rfl, by simp [RequestProcessor.select_provider]⟩
  · rintro ⟨hn, hmem⟩
    rcases hq : dictGet p.providers n with _ | q
    · rw [← dictGet_isSome_iff, hq] at hmem
      simp at hmem
    · have hname : q.name = n := hwf (n, q) (dictGet_mem _ _ _ hq)
      have hsel : p.select_provider (some n) = (some q, []) := by
        simp [RequestProcessor.select_provider, hn, hq]
      refine ⟨by simp [hsel, hq], by simp [hsel], ?_⟩
      cases hg : q.generate s ctx hist <;>
        simp [RequestProcessor.process_request, hs, hsel, hg, hname, Except.map]
  · rintro ⟨hn, hmem⟩
    rcases hq : dictGet p.providers n with _ | q
    · simp [RequestProcessor.select_provider, hn, hq]
    · rw [← dictGet_isSome_iff, hq] at hmem
      simp at hmem
  · rintro ⟨hn, hmem, hdef⟩
    rcases hq : dictGet p.providers n with _ | q
    · have hsel : p.select_provider (some n)
          = (some prov,
             [LogEvent.log_warning
               ("Requested provider '" ++ n ++ "' not available. Falling back to default.")]) := by
        simp [RequestProcessor.select_provider, hn, hq, hdef]
      cases hg : prov.generate s ctx hist <;>
        simp [RequestProcessor.process_request, hs, hsel, hg, Except.map]
    · rw [← dictGet_isSome_iff, hq] at hmem
      simp at hmem

/-- Witness for C1 on the echo processor: the unregistered non-empty name
"nonexistent" falls back to the default provider "gemini" with the warning
logged, and the envelope names the default. -/
theorem c1_provider_selection_witness :
    procOne.select_provider (some "nonexistent")
      = (procOne.default_provider,
         [LogEvent.log_warning
           "Requested provider 'nonexistent' not available. Falling back to default."])
    ∧ Except.map Envelope.provider
        (procOne.process_request (ReqArg.str "hi") [] [] (some "nonexistent")).1
          = Except.ok (some echoProvider.name) :=
  ⟨((c1_provider_selection procOne echoProvider "nonexistent" "hi" [] []
      (by intro e he; simp [procOne] at he; subst he; rfl) (by decide)).2.1
      ⟨by decide, by simp [procOne, echoProvider, dictGet]⟩),
   ((c1_provider_selection procOne echoProvider "nonexistent" "hi" [] []
      (by intro e he; simp [procOne] at he; subst he; rfl) (by decide)).2.2.1
      ⟨by decide, by simp [procOne, echoProvider, dictGet], rfl⟩)⟩

/-! ## C8 — provider construction validates before any client interaction -/

/-- Whether a construction outcome is a raised `ValueError`. -/
def isValueError : Except PyExc AIProviderConfig → Bool
  | Except.error (PyExc.valueError _) => true
  | _ => false

/-- C8: a provider configuration with an empty API key or an empty model
name makes both `GeminiProvider` and `GPTProvider` construction raise a
`ValueError` with an empty construction trace — in particular before the
remote-client initialization (no `clientInit` event), whatever that
initialization would have done. -/
theorem c8_construction_validation (config : AIProviderConfig)
    (client_init : Except String Unit)
    (h : config.api_key = "" ∨ config.model = "") :
    isValueError (GeminiProvider.init config client_init).1 = true
    ∧ (GeminiProvider.init config client_init).2 = []
    ∧ isValueError (GPTProvider.init config client_init).1 = true
    ∧ (GPTProvider.init config client_init).2 = [] := by
  have hval : ∀ cls, ∃ msg,
      AIProvider.validate_config cls config = Except.error (PyExc.valueError msg) := by
    intro cls
    rcases h with h | h
    · exact ⟨cls ++ " requires an API key", by simp [AIProvider.validate_config, h]⟩
    · by_cases hk : config.api_key = ""
      · exact ⟨cls ++ " requires an API key", by simp [AIProvider.validate_config, hk]⟩
      · exact ⟨cls ++ " requires a model name", by simp [AIProvider.validate_config, hk, h]⟩
  obtain ⟨m1, h1⟩ := hval "GeminiProvider"
  obtain ⟨m2, h2⟩ := hval "GPTProvider"
  refine ⟨?_, ?_, ?_, ?_⟩ <;>
    simp [GeminiProvider.init, GPTProvider.init, providerInit, h1, h2, isValueError]

/-- Witness for C8: the configuration with an empty API key and model
"gemini-pro", under a client initialization that would have succeeded. -/
theorem c8_construction_validation_witness :
    isValueError (GeminiProvider.init { api_key := "", model := "gemini-pro" }
        (Except.ok ())).1 = true
    ∧ (GeminiProvider.init { api_key := "", model := "gemini-pro" } (Except.ok ())).2 = []
    ∧ isValueError (GPTProvider.init { api_key := "", model := "gemini-pro" }
        (Except.ok ())).1 = true
    ∧ (GPTProvider.init { api_key := "", model := "gemini-pro" } (Except.ok ())).2 = [] :=
  c8_construction_validation { api_key := "", model := "gemini-pro" } (Except.ok ())
    (Or.inl rfl)

/-! ## C9 — prompt assembly preserves input ordering -/

theorem pyJoin_cons (sep x : String) (xs : List String) (hx : xs ≠ []) :
    pyJoin sep (x :: xs) = x ++ sep ++ pyJoin sep xs := by
  cases xs with
  | nil => exact absurd rfl hx
  | cons y ys => rfl

theorem pyJoin_append (sep : String) (xs ys : List String) (hx : xs ≠ []) (hy : ys ≠ []) :
    pyJoin sep (xs ++ ys) = pyJoin sep xs ++ sep ++ pyJoin sep ys := by
  induction xs with
  | nil => exact absurd rfl hx
  | cons x xs ih =>
      cases xs with
      | nil =>
          cases ys with
          | nil => exact absurd rfl hy
          | cons y ys' => simp [pyJoin]
      | cons a xs' =>
          have h2 := ih (by simp)
          simp only [List.cons_append] at h2 ⊢
          rw [show pyJoin sep (x :: a :: (xs' ++ ys)) = x ++ sep ++ pyJoin sep (a :: (xs' ++ ys))
                from rfl,
              show pyJoin sep (x :: a :: xs') = x ++ sep ++ pyJoin sep (a :: xs') from rfl,
              h2]
          simp [String.append_assoc]

/-- Joining a titled block followed by a blank line and the remaining
lines. -/
theorem pyJoin_flatten (sep title : String) (lines rest : List String)
    (hl : lines ≠ []) (hr : rest ≠ []) :
    pyJoin sep (title :: lines ++ [""] ++ rest)
      = title ++ sep ++ pyJoin sep lines ++ sep ++ sep ++ pyJoin sep rest := by
  rw [show title :: lines ++ [""] ++ rest = (title :: lines) ++ ("" :: rest) by simp,
      pyJoin_append sep (title :: lines) ("" :: rest) (by simp) (by simp),
      pyJoin_cons sep title lines hl, pyJoin_cons sep "" rest hr]
  simp [String.append_assoc, String.empty_append]

/-- C9: prompt assembly preserves input ordering in both variants.  The
Gemini text blob equals the flat newline-join of: the context header, the
rendered context entries in mapping order, a blank, the history header, the
rendered history entries in sequence order, a blank, and the current
prompt.  The GPT message list has the context-bearing system message first,
the normalized i-th history message at position i+1 for every i, and the
user prompt as its last message. -/
theorem c9_prompt_order (prompt : String) (context : Ctx) (hist : List HistMsg)
    (i : Nat) (hc : context ≠ []) (hh : hist ≠ []) (hi : i < hist.length) :
    GeminiProvider.build_prompt prompt context hist
      = pyJoin "\n"
          (["Context:"] ++ context.map renderKV ++ [""] ++
           ["Previous conversation:"] ++ hist.map renderHist ++ [""] ++
           ["User: " ++ prompt])
    ∧ (GPTProvider.build_messages prompt context hist).length = hist.length + 2
    ∧ (GPTProvider.build_messages prompt context hist).head?
        = some { role := "system",
                 content := "You are Aura, an intelligent financial assistant." ++
                   ("\n\nContext:\n" ++ pyJoin "\n" (context.map renderKV)) }
    ∧ (GPTProvider.build_messages prompt context hist).get? (i + 1)
        = (hist.get? i).map
            (fun m => { role := msgGet m "role" "user", content := msgGet m "content" "" })
    ∧ (GPTProvider.build_messages prompt context hist).getLast?
        = some { role := "user", content := prompt } := by
  have hcl : context.map renderKV ≠ [] := by simpa using hc
  have hhl : hist.map renderHist ≠ [] := by simpa using hh
  refine ⟨?_, ?_, ?_, ?_, ?_⟩
  · rw [show (["Context:"] ++ context.map renderKV ++ [""] ++
           ["Previous conversation:"] ++ hist.map renderHist ++ [""] ++
           ["User: " ++ prompt])
          = "Context:" :: context.map renderKV ++ [""] ++
            ("Previous conversation:" :: hist.map renderHist ++ [""] ++
              ["User: " ++ prompt]) by simp,
        pyJoin_flatten "\n" "Context:" (context.map renderKV) _ hcl (by simp),
        pyJoin_flatten "\n" "Previous conversation:" (hist.map renderHist) _ hhl (by simp)]
    simp only [GeminiProvider.build_prompt, if_neg hc, if_neg hh]
    rw [show ["Context:\n" ++ pyJoin "\n" (List.map renderKV context) ++ "\n"] ++
          ["Previous conversation:\n" ++ pyJoin "\n" (List.map renderHist hist) ++ "\n"] ++
          ["User: " ++ prompt]
        = ["Context:\n" ++ pyJoin "\n" (List.map renderKV context) ++ "\n",
           "Previous conversation:\n" ++ pyJoin "\n" (List.map renderHist hist) ++ "\n",
           "User: " ++ prompt] by simp]
    rw [show pyJoin "\n"
          ["Context:\n" ++ pyJoin "\n" (List.map renderKV context) ++ "\n",
           "Previous conversation:\n" ++ pyJoin "\n" (List.map renderHist hist) ++ "\n",
           "User: " ++ prompt]
        = ("Context:\n" ++ pyJoin "\n" (List.map renderKV context) ++ "\n") ++ "\n" ++
          (("Previous conversation:\n" ++ pyJoin "\n" (List.map renderHist hist) ++ "\n") ++
            "\n" ++ ("User: " ++ prompt)) from rfl,
        show ("Context:\n" : String) = "Context:" ++ "\n" from rfl,
        show ("Previous conversation:\n" : String) = "Previous conversation:" ++ "\n" from rfl,
        show ("User: " ++ prompt : String) = "User: " ++ prompt from rfl]
    simp [String.append_assoc, pyJoin]
  · simp [GPTProvider.build_messages]
  · simp [GPTProvider.build_messages, if_neg hc]
  · have hlen : i < (hist.map (fun m =>
        ({ role := msgGet m "role" "user", content := msgGet m "content" "" } : ChatMsg))).length := by
      simpa using hi
    simp only [GPTProvider.build_messages, List.get?_cons_succ]
    rw [List.get?_append hlen, List.get?_map]
  · simp only [GPTProvider.build_messages]
    rw [show ({ role := "system",
                content := "You are Aura, an intelligent financial assistant." ++
                  (if context = [] then "" else
                    "\n\nContext:\n" ++ pyJoin "\n" (context.map renderKV)) } : ChatMsg) ::
            (hist.map (fun m =>
                ({ role := msgGet m "role" "user", content := msgGet m "content" "" } : ChatMsg)) ++
              [{ role := "user", content := prompt }])
          = ({ role := "system",
                content := "You are Aura, an intelligent financial assistant." ++
                  (if context = [] then "" else
                    "\n\nContext:\n" ++ pyJoin "\n" (context.map renderKV)) } : ChatMsg) ::
              hist.map (fun m =>
                ({ role := msgGet m "role" "user", content := msgGet m "content" "" } : ChatMsg)) ++
              [{ role := "user", content := prompt }] by simp]
    exact List.getLast?_concat _

/-- Witness for C9 at a one-entry context and a one-message history. -/
theorem c9_prompt_order_witness :
    GeminiProvider.build_prompt "q" [("k", "v")] [[("role", "assistant"), ("content", "hi")]]
      = pyJoin "\n"
          (["Context:"] ++ [("k", "v")].map renderKV ++ [""] ++
           ["Previous conversation:"] ++
           [[("role", "assistant"), ("content", "hi")]].map renderHist ++ [""] ++
           ["User: " ++ "q"])
    ∧ (GPTProvider.build_messages "q" [("k", "v")]
        [[("role", "assistant"), ("content", "hi")]]).length
        = [[("role", "assistant"), ("content", "hi")]].length + 2
    ∧ (GPTProvider.build_messages "q" [("k", "v")]
        [[("role", "assistant"), ("content", "hi")]]).head?
        = some { role := "system",
                 content := "You are Aura, an intelligent financial assistant." ++
                   ("\n\nContext:\n" ++ pyJoin "\n" ([("k", "v")].map renderKV)) }
    ∧ (GPTProvider.build_messages "q" [("k", "v")]
        [[("role", "assistant"), ("content", "hi")]]).get? (0 + 1)
        = ([[("role", "assistant"), ("content", "hi")]].get? 0).map
            (fun m => { role := msgGet m "role" "user", content := msgGet m "content" "" })
    ∧ (GPTProvider.build_messages "q" [("k", "v")]
        [[("role", "assistant"), ("content", "hi")]]).getLast?
        = some { role := "user", content := "q" } :=
  c9_prompt_order "q" [("k", "v")] [[("role", "assistant"), ("content", "hi")]] 0
    (by decide) (by decide) (by decide)

end AuraIA
